import Mathlib

/-!
Shallow embedding of the DLNA discovery / control engine of this repository
(`src/index.js`), covering:

* SSDP header parsing and the per-datagram dedup logic of
  `DLNADiscoverer.discover` (the `message` handler);
* the recursive AVTransport service search `findAVTransportService` over the
  parsed (namespace-stripped) XML value tree produced by xml2js;
* `normalizeURL`, `parseDeviceType`, `isValidHttpUrl` and the descriptor
  construction of `parseDeviceDescription`;
* `DLNAController.play` / `sendSoapRequest` / `escapeXml`.

Modelling conventions:

* JavaScript strings are Lean `String`s; `undefined`/`null`-able values are
  `Option`s; a thrown-and-caught exception is `Except.error` carrying the
  message.
* The WHATWG `URL` class (Node's `new URL`) is modelled for the
  `http`/`https` shapes this program manipulates
  (`scheme://host[:port][/path]`): the parser records the port as a string
  and drops it when it equals the scheme's default (80 for http, 443 for
  https), exactly as WHATWG does; `origin` is `scheme://host[:port]` with
  the default port omitted; resolving a string against a base handles
  absolute URLs, `//`-scheme-relative, `/`-absolute-from-origin and plain
  relative references (the base is always an origin, whose path is `/`).
  Userinfo, query and fragment components are out of the modelled shape.
* Network I/O (UDP datagrams, HTTP fetches) is modelled by passing the
  observed outcomes in as explicit data: a datagram carries its raw text and
  the outcome its asynchronous description-resolution would produce; a SOAP
  exchange carries the HTTP status, body and the XML-parse outcome of the
  response body.
-/

namespace DLNA

/-! ### Small string helpers (JS `trim`, `toLowerCase`, `split`,
`startsWith`, `indexOf`/`slice`), implemented by structural recursion over
the character list so that every definition evaluates inside the kernel. -/

/-- Whitespace for JS `trim` (ASCII space/tab/newline forms, which is what
SSDP header lines contain). -/
def isJsSpace (c : Char) : Bool := c.isWhitespace

/-- Strip leading and trailing whitespace from a character list. -/
def trimList (cs : List Char) : List Char :=
  ((cs.dropWhile isJsSpace).reverse.dropWhile isJsSpace).reverse

/-- JS `String.prototype.trim`. -/
def jsTrim (s : String) : String := String.mk (trimList s.toList)

/-- Lower-case one ASCII letter (JS `toLowerCase` on the ASCII range, which
covers the header keys and URNs this program sees). -/
def asciiLower (c : Char) : Char :=
  if 'A' ≤ c ∧ c ≤ 'Z' then Char.ofNat (c.toNat + 32) else c

/-- JS `String.prototype.toLowerCase`. -/
def jsToLower (s : String) : String := String.mk (s.toList.map asciiLower)

/-- `listStartsWith s p`: does `s` start with `p`? (JS
`String.prototype.startsWith` on character lists.) -/
def listStartsWith : List Char → List Char → Bool
  | _, [] => true
  | [], _ :: _ => false
  | c :: cs, d :: ds => c = d && listStartsWith cs ds

/-- JS `s.startsWith(p)`. -/
def strStartsWith (s p : String) : Bool := listStartsWith s.toList p.toList

/-- Split on every occurrence of `\r\n` (JS `msg.split('\r\n')`). -/
def splitCRLF : List Char → List (List Char)
  | '\r' :: '\n' :: rest => [] :: splitCRLF rest
  | c :: rest =>
    match splitCRLF rest with
    | g :: gs => (c :: g) :: gs
    | [] => [[c]]
  | [] => [[]]

/-- Split on every `':'` (JS `str.split(':')`). -/
def splitColon : List Char → List (List Char)
  | ':' :: rest => [] :: splitColon rest
  | c :: rest =>
    match splitColon rest with
    | g :: gs => (c :: g) :: gs
    | [] => [[c]]
  | [] => [[]]

/-- Split at the first occurrence of `://`: `none` when the string contains
none, otherwise the parts strictly before and strictly after it. -/
def breakSchemeSep : List Char → Option (List Char × List Char)
  | ':' :: '/' :: '/' :: rest => some ([], rest)
  | c :: rest => (breakSchemeSep rest).map (fun p => (c :: p.1, p.2))
  | [] => none

/-- Numeric value of a digit string (how the URL parser reads a port, so
leading zeros are allowed). -/
def digitsToNat (cs : List Char) : Nat :=
  cs.foldl (fun n c => n * 10 + (c.toNat - 48)) 0

/-- Split a character list at the first `':'`, as
`line.indexOf(':')` / `line.slice(0, i)` / `line.slice(i + 1)` do:
`none` when the line has no colon, otherwise the part before the first colon
and everything after it (later colons preserved in the second component). -/
def splitFirstColon : List Char → Option (List Char × List Char)
  | [] => none
  | c :: rest =>
    if c = ':' then some ([], rest)
    else (splitFirstColon rest).map (fun p => (c :: p.1, p.2))

/-! ### SSDP header parsing (`discover` message handler, src/index.js:65-92)

```js
const headers = msg.toString().split('\r\n').reduce((acc, line) => {
    const colonIndex = line.indexOf(':');
    if (colonIndex === -1) return acc;
    const key = line.slice(0, colonIndex).trim().toLowerCase();
    const value = line.slice(colonIndex + 1).trim();
    if (key && value) acc[key] = value;
    return acc;
}, {});
```
The accumulator is a JS object: assigning an existing key overwrites it,
a new key is appended (insertion order). -/

/-- JS object property assignment `acc[key] = value` on an association list
kept in insertion order. -/
def setAssoc (acc : List (String × String)) (k v : String) :
    List (String × String) :=
  if acc.any (fun p => p.1 = k) then
    acc.map (fun p => if p.1 = k then (k, v) else p)
  else acc ++ [(k, v)]

/-- One step of the header `reduce`: split the line at its first colon
(discarding it when there is none), trim + lowercase the key, trim the
value, and store the pair when both are non-empty (JS truthiness of
strings: non-empty). -/
def headerStep (acc : List (String × String)) (line : String) :
    List (String × String) :=
  match splitFirstColon line.toList with
  | none => acc
  | some (k, v) =>
    let key := jsToLower (jsTrim (String.mk k))
    let value := jsTrim (String.mk v)
    if key ≠ "" ∧ value ≠ "" then setAssoc acc key value else acc

/-- Parse one SSDP datagram into its header mapping:
`msg.toString().split('\r\n').reduce(headerStep, {})`. -/
def parseHeaders (msg : String) : List (String × String) :=
  ((splitCRLF msg.toList).map String.mk).foldl headerStep []

/-- JS object property read `headers[key]`: first (and only, keys are unique)
binding, `undefined` (`none`) when absent. -/
def getAssoc (hs : List (String × String)) (k : String) : Option String :=
  (hs.find? (fun p => p.1 = k)).map (fun p => p.2)

/-! ### `parseDeviceType` (src/index.js:227-230)

```js
const parts = (typeStr || '').split(':');
return parts.length >= 4 ? parts[3] : 'MediaRenderer';
```
`typeStr` may be `undefined` (field absent), modelled as `none`. -/

def parseDeviceType (typeStr : Option String) : String :=
  let parts := (splitColon (typeStr.getD "").toList).map String.mk
  if parts.length ≥ 4 then parts.getD 3 "" else "MediaRenderer"

/-! ### `escapeXml` (src/index.js:348-360)

`str.replace(/[<>&'"]/g, char => map[char])` — a per-character global
replacement. -/

/-- The replacement applied to one character by the regex callback. -/
def escapeChar (c : Char) : String :=
  if c = '<' then "&lt;"
  else if c = '>' then "&gt;"
  else if c = '&' then "&amp;"
  else if c = '\'' then "&apos;"
  else if c = '"' then "&quot;"
  else String.mk [c]

/-- Global per-character replacement over the whole string: the result is
the concatenation, in order, of the replacement of every character. -/
def escapeXml (s : String) : String :=
  String.mk (s.toList.flatMap (fun c => (escapeChar c).toList))

/-! ### WHATWG URL model (Node `new URL`), restricted to http/https -/

/-- Default port of a (special) scheme: 80 for http, 443 for https. -/
def schemeDefaultPort : String → Option Nat
  | "http" => some 80
  | "https" => some 443
  | _ => none

/-- A parsed URL record: `port` is the string WHATWG exposes via `url.port` —
empty when absent or equal to the scheme default. `pathname` always starts
with `/`. -/
structure ParsedURL where
  scheme : String
  host : String
  port : String
  pathname : String
deriving Repr, DecidableEq

/-- Parse the authority `host[:port]`; fails on an empty host, a non-numeric
port, or an extra colon. An empty port (`host:`) is treated as absent, and a
port equal to the scheme default is dropped (WHATWG behaviour: `url.port` is
`''` for `http://h:80/`). -/
def parseAuthority (scheme authority : String) : Option (String × String) :=
  match (splitColon authority.toList).map String.mk with
  | [host] => if host = "" then none else some (host, "")
  | [host, portStr] =>
    if host = "" then none
    else if portStr = "" then some (host, "")
    else if portStr.toList.all Char.isDigit then
      let n := digitsToNat portStr.toList
      if schemeDefaultPort scheme = some n then some (host, "")
      else some (host, toString n)
    else none
  | _ => none

/-- Parse an absolute http/https URL of shape `scheme://host[:port][/path]`.
Returns `none` (modelling a thrown `TypeError`) when the string is not of
this shape — no `://`, a scheme other than http/https, or a bad authority. -/
def parseURL (s : String) : Option ParsedURL :=
  match breakSchemeSep s.toList with
  | none => none
  | some (schemeCs, restCs) =>
    let scheme := String.mk schemeCs
    if scheme = "http" ∨ scheme = "https" then
      let authority := String.mk (restCs.takeWhile (fun c => c ≠ '/'))
      let path := String.mk (restCs.dropWhile (fun c => c ≠ '/'))
      match parseAuthority scheme authority with
      | none => none
      | some (host, port) =>
        some ⟨scheme, host, port, if path = "" then "/" else path⟩
    else none

/-- WHATWG `url.origin` for http/https: `scheme://host[:port]`, default port
omitted (it was already dropped at parse time). -/
def originOf (u : ParsedURL) : ParsedURL :=
  { u with pathname := "/" }

/-- Serialize (`url.href`) for the modelled shape. -/
def hrefOf (u : ParsedURL) : String :=
  u.scheme ++ "://" ++ u.host ++ (if u.port = "" then "" else ":" ++ u.port)
    ++ u.pathname

/-- A character allowed after the first one in a URL scheme. -/
def isSchemeChar (c : Char) : Bool :=
  c.isAlpha || c.isDigit || c = '+' || c = '-' || c = '.'

/-- After an initial alpha, scheme characters up to a `':'`. -/
def hasSchemeMark : List Char → Bool
  | ':' :: _ => true
  | c :: rest => isSchemeChar c && hasSchemeMark rest
  | [] => false

/-- Does the input begin with `scheme:` (so the WHATWG parser treats it as
an absolute URL rather than a relative reference)? -/
def looksAbsolute : List Char → Bool
  | c :: rest => c.isAlpha && hasSchemeMark rest
  | [] => false

/-- `new URL(input, base)` where `base` is an already-parsed origin
(pathname `/`): an input beginning with `scheme:` is parsed absolutely;
`//...` is scheme-relative; `/...` replaces the path; anything else is
resolved relative to the base directory `/`. -/
def resolveURL (input : String) (base : ParsedURL) : Option ParsedURL :=
  if looksAbsolute input.toList then parseURL input
  else if strStartsWith input "//" then parseURL (base.scheme ++ ":" ++ input)
  else if strStartsWith input "/" then some { base with pathname := input }
  else if input = "" then some base
  else some { base with pathname := "/" ++ input }

/-- Collapse every run of consecutive `/` into one
(`pathname.replace(/\/+/g, '/')`). -/
def collapseRuns : List Char → List Char
  | [] => []
  | [c] => [c]
  | a :: b :: rest =>
    if a = '/' ∧ b = '/' then collapseRuns (b :: rest)
    else a :: collapseRuns (b :: rest)

/-- `pathname.replace(/\/+/g, '/')` on strings. -/
def collapseSlashes (s : String) : String := String.mk (collapseRuns s.toList)

/-! ### `normalizeURL` (src/index.js:213-225)

```js
try {
    const baseURL = new URL(base);
    const resolved = new URL(path, baseURL.origin);
    resolved.pathname = resolved.pathname.replace(/\/+/g, '/');
    return resolved.href;
} catch { return null; }
```
-/

def normalizeURL (base path : String) : Option String :=
  match parseURL base with
  | none => none
  | some baseURL =>
    match resolveURL path (originOf baseURL) with
    | none => none
    | some resolved =>
      some (hrefOf { resolved with pathname := collapseSlashes resolved.pathname })

/-! ### `isValidHttpUrl` (src/index.js:176-183)

`new URL(url)` must succeed and the protocol must be `http:` or `https:`;
`parseURL` already accepts exactly the http/https shapes, so success of the
parse is the whole check. -/

def isValidHttpUrl (url : String) : Bool :=
  match parseURL url with
  | some _ => true
  | none => false

/-! ### The xml2js value tree

With `explicitArray: false` and `mergeAttrs: true`, xml2js produces plain JS
values: strings for text leaves, objects (string-keyed, insertion-ordered)
for elements, and arrays for repeated siblings. `findAVTransportService`
walks such a value. -/

inductive JVal where
  | str : String → JVal
  | arr : List JVal → JVal
  | obj : List (String × JVal) → JVal
deriving Repr

/-- JS property read `node.key` on an object's field list. -/
def getField (fs : List (String × JVal)) (k : String) : Option JVal :=
  (fs.find? (fun p => p.1 = k)).map (fun p => p.2)

/-- The literal service-type URN stem matched by
`serviceType?.startsWith('urn:schemas-upnp-org:service:AVTransport:')`. -/
def avUrn : String := "urn:schemas-upnp-org:service:AVTransport:"

/-- Does this node satisfy the match test of `findAVTransportService`?
Only a non-array object is ever tested; its `serviceType` must be a string
(as xml2js produces for a plain text element) starting with `avUrn`. -/
def isAVNode : JVal → Bool
  | .obj fs =>
    match getField fs "serviceType" with
    | some (.str s) => strStartsWith s avUrn
    | _ => false
  | _ => false

/-- Does the match test THROW at this node? `node.serviceType?.startsWith`
is a TypeError when `serviceType` is present but not a string — an array
(repeated `<serviceType>` siblings) or an object (an attributed element
under `mergeAttrs: true`). An absent `serviceType` short-circuits via `?.`
without throwing. -/
def isThrowNode : JVal → Bool
  | .obj fs =>
    match getField fs "serviceType" with
    | some (.arr _) => true
    | some (.obj _) => true
    | _ => false
  | _ => false

/-- A node at which the search stops: either a match is returned or the
test throws. At every other node the traversal continues. -/
def isStopNode (v : JVal) : Bool := isAVNode v || isThrowNode v

/-- The message of the TypeError thrown by
`node.serviceType?.startsWith(...)` on a non-string `serviceType`. -/
def svcTypeError : String := "TypeError: startsWith is not a function"

/-- The pair `{serviceType, controlURL}` the search returns for a matched
node (junk on a non-matching shape; only ever read on matches). -/
structure AVService where
  serviceType : String
  controlURL : Option JVal
deriving Repr

def extractAVService : JVal → AVService
  | .obj fs =>
    { serviceType :=
        match getField fs "serviceType" with
        | some (.str s) => s
        | _ => ""
      controlURL := getField fs "controlURL" }
  | _ => { serviceType := "", controlURL := none }

/-! ### `findAVTransportService` (src/index.js:185-211)

```js
findAVTransportService(node, services = []) {
    if (!node) return null;
    if (Array.isArray(node)) {
        for (const item of node) {
            const found = this.findAVTransportService(item, services);
            if (found) return found;
        }
    } else if (typeof node === 'object') {
        if (node.serviceType?.startsWith('urn:schemas-upnp-org:service:AVTransport:')) {
            return { serviceType: node.serviceType, controlURL: node.controlURL };
        }
        for (const value of Object.values(node)) {
            const found = this.findAVTransportService(value, services);
            if (found) return found;
        }
    }
    return null;
}
```
A string node is neither an array nor (typeof) `'object'`, so it yields
null. `Object.values` iterates fields in insertion order. The result is an
`Except`: `.ok` is the function's return value (`none` = null), `.error`
is the TypeError thrown by `node.serviceType?.startsWith(...)` when the
`serviceType` property holds a non-string value; the throw propagates out
of the recursion (the `for` loops have no handler). -/

mutual

def findAVTransportService : JVal → Except String (Option AVService)
  | .str _ => .ok none
  | .arr xs => findAVInList xs
  | .obj fs =>
    match getField fs "serviceType" with
    | some (.str s) =>
      if strStartsWith s avUrn then
        .ok (some { serviceType := s, controlURL := getField fs "controlURL" })
      else findAVInFields fs
    | some (.arr _) => .error svcTypeError
    | some (.obj _) => .error svcTypeError
    | none => findAVInFields fs

def findAVInList : List JVal → Except String (Option AVService)
  | [] => .ok none
  | x :: xs =>
    match findAVTransportService x with
    | .error e => .error e
    | .ok (some r) => .ok (some r)
    | .ok none => findAVInList xs

def findAVInFields : List (String × JVal) → Except String (Option AVService)
  | [] => .ok none
  | f :: fs =>
    match findAVTransportService f.2 with
    | .error e => .error e
    | .ok (some r) => .ok (some r)
    | .ok none => findAVInFields fs

end

/-- `findAVTransportService(device.serviceList)` where the property may be
absent (`undefined`): `if (!node) return null`. -/
def findAVOpt : Option JVal → Except String (Option AVService)
  | none => .ok none
  | some v => findAVTransportService v

/-! ### Document-order list of the nodes the search actually tests

The search tests an object node, then recurses into its field values in
order; an array is only a container; a string is never tested. `dfsNodes`
lists the tested nodes in exactly that (preorder, document) order. -/

mutual

def dfsNodes : JVal → List JVal
  | .str _ => []
  | .arr xs => dfsNodesList xs
  | .obj fs => JVal.obj fs :: dfsNodesFields fs

def dfsNodesList : List JVal → List JVal
  | [] => []
  | x :: xs => dfsNodes x ++ dfsNodesList xs

def dfsNodesFields : List (String × JVal) → List JVal
  | [] => []
  | f :: fs => dfsNodes f.2 ++ dfsNodesFields fs

end

/-! ### `parseDeviceDescription` (src/index.js:119-173), post-fetch part

The fetch + XML parse is passed in as an `Except String JVal`
(`.error` = network failure, non-2xx (`HTTP ${status}` thrown), or
xml2js rejection — all caught by the enclosing `try`, yielding `null`). -/

/-- JS truthiness of a defined value: only the empty string is falsy among
the values xml2js produces. -/
def jsTruthy : JVal → Bool
  | .str s => s ≠ ""
  | _ => true

/-- JS property read `v.key`: `undefined` on non-objects. -/
def getFieldJ : JVal → String → Option JVal
  | .obj fs, k => getField fs k
  | _, _ => none

/-- `a || b` on possibly-`undefined` JS values. -/
def jsOr (a b : Option JVal) : Option JVal :=
  match a with
  | some v => if jsTruthy v then some v else b
  | none => b

/-- `result.root?.device || result.device`. -/
def deviceOf (result : JVal) : Option JVal :=
  jsOr ((getFieldJ result "root").bind (fun r => getFieldJ r "device"))
    (getFieldJ result "device")

/-- `v?.trim() || dflt` where `v` is a JS property that should be a string:
absent → default; empty after trim → default; a non-string value has no
`trim` method, so the expression throws (caught by the enclosing `try`). -/
def jsStrTrimOr (v : Option JVal) (dflt : String) : Except String String :=
  match v with
  | none => .ok dflt
  | some (.str s) => .ok (if jsTrim s = "" then dflt else jsTrim s)
  | some _ => .error "TypeError: trim is not a function"

/-- The argument `device.deviceType` as received by `parseDeviceType`:
absent → `undefined` (`none`); a string is passed through; a non-string
truthy value would make `split` throw inside `parseDeviceType`. -/
def jsDeviceTypeArg : Option JVal → Except String (Option String)
  | none => .ok none
  | some (.str s) => .ok (some s)
  | some _ => .error "TypeError: split is not a function"

/-- JS string conversion applied by `new URL(path, base)` to its first
argument: `undefined` stringifies to `"undefined"`. (Object/array
`controlURL` values, which xml2js does not produce for a text element, are
approximated by the object form.) -/
def jsToString : Option JVal → String
  | none => "undefined"
  | some (.str s) => s
  | some _ => "[object Object]"

structure Descriptor where
  name : String
  type : String
  manufacturer : String
  controlURL : Option String
  ip : String
  originalLocation : String
  port : String
deriving Repr, DecidableEq

def parseDeviceDescription (location : String) (fetched : Except String JVal) :
    Option Descriptor :=
  if ¬ isValidHttpUrl location then none
  else
    match fetched with
    | .error _ => none
    | .ok result =>
      match deviceOf result with
      | none => none
      | some dev =>
        if ¬ jsTruthy dev then none
        else
          match findAVOpt (getFieldJ dev "serviceList") with
          | .error _ => none
          | .ok none => none
          | .ok (some av) =>
            match parseURL location with
            | none => none
            | some url =>
              match jsStrTrimOr (getFieldJ dev "friendlyName") "Unnamed Device",
                  jsDeviceTypeArg (getFieldJ dev "deviceType"),
                  jsStrTrimOr (getFieldJ dev "manufacturer")
                    "Unknown Manufacturer" with
              | .ok nm, .ok ty, .ok mf =>
                some { name := nm
                       type := parseDeviceType ty
                       manufacturer := mf
                       controlURL := normalizeURL location (jsToString av.controlURL)
                       ip := "Pending"
                       originalLocation := location
                       port := url.port }
              | _, _, _ => none

/-! ### The discover message handler and result set (src/index.js:20-117)

Each inbound datagram carries its raw text and sender info, plus the
outcome that `await parseDeviceDescription(location)` would produce for it
(the network is an oracle). The handler:

```js
if (!headers.location || devices.has(headers.location)) return;
const device = await this.parseDeviceDescription(headers.location);
if (device) { device.ip = rinfo.address; devices.set(headers.location, device); }
```

`devices` is a JS `Map` keyed by the location string; at the timeout the
scan resolves with `[...devices.values()]`. -/

structure Datagram where
  msg : String
  address : String
  resolved : Option Descriptor
deriving Repr

/-- Process one datagram against the in-progress result map (an insertion-
ordered association list, exactly a JS `Map`). -/
def scanStep (devices : List (String × Descriptor)) (d : Datagram) :
    List (String × Descriptor) :=
  match getAssoc (parseHeaders d.msg) "location" with
  | none => devices
  | some loc =>
    if devices.any (fun p => p.1 = loc) then devices
    else
      match d.resolved with
      | none => devices
      | some dev => devices ++ [(loc, { dev with ip := d.address })]

/-- The result map after processing the scan's datagrams in arrival order. -/
def runScan (msgs : List Datagram) : List (String × Descriptor) :=
  msgs.foldl scanStep []

/-- `[...devices.values()]` — what `discover` resolves with at the timeout. -/
def discoverResults (msgs : List Datagram) : List Descriptor :=
  (runScan msgs).map (fun p => p.2)

/-! ### Scan setup (src/index.js:25-63)

`socket.bind(1900, cb)`: a bind failure is emitted as an `'error'` event,
whose handler runs `cleanup()` (closes the socket) and resolves the promise
with `[]`. Inside the bind callback, `socket.addMembership(...)` is called
with no surrounding `try`: if it throws, the exception propagates out of the
event callback uncaught — nothing closes the socket and the promise never
resolves. (`.error` in the run result models an exception escaping
`discover`'s machinery instead of a resolved value.) -/

inductive BindOutcome where
  | bindError (msg : String)
  | bound (joinErr : Option String)

structure DiscoverRun where
  result : Except String (List Descriptor)
  socketClosed : Bool
deriving Repr

def discover (setup : BindOutcome) (msgs : List Datagram) : DiscoverRun :=
  match setup with
  | .bindError _ => { result := .ok [], socketClosed := true }
  | .bound (some e) => { result := .error e, socketClosed := false }
  | .bound none => { result := .ok (discoverResults msgs), socketClosed := true }

/-! ### `DLNAController.sendSoapRequest` (src/index.js:310-346) and
`play` (src/index.js:256-288)

A SOAP exchange is modelled by the HTTP status and body the `fetch`
produced, plus the outcome of `parser.parseStringPromise` on the 2xx
response text; a transport failure is the `.error` case.

```js
if (!response.ok) {
    const errorText = await response.text();
    throw new Error(`SOAP请求失败: ${response.status} - ${errorText}`);
}
return this.parser.parseStringPromise(await response.text());
```
-/

structure SoapResponse where
  status : Nat
  body : String
  parsed : Except String Unit
deriving Repr

/-- `response.ok`: status in the 2xx range. -/
def respOk (status : Nat) : Bool := 200 ≤ status ∧ status < 300

/-- The message of the error thrown on a non-2xx SOAP response. -/
def soapFailMsg (status : Nat) (body : String) : String :=
  "SOAP请求失败: " ++ toString status ++ " - " ++ body

def sendSoapRequest (net : Except String SoapResponse) : Except String Unit :=
  match net with
  | .error e => .error e
  | .ok r => if respOk r.status then r.parsed else .error (soapFailMsg r.status r.body)

/-- The `SetAVTransportURI` action body template of `play`
(src/index.js:271-272), with the template literal's newline and 17-space
indentation reproduced exactly. -/
def setAVTransportURIBody (mediaURL : String) : String :=
  "<CurrentURI>" ++ escapeXml mediaURL ++ "</CurrentURI>\n"
    ++ String.mk (List.replicate 17 ' ')
    ++ "<CurrentURIMetaData></CurrentURIMetaData>"

structure PlayResult where
  success : Bool
  error : Option String
deriving Repr, DecidableEq

/-- `play(deviceLocation, mediaURL)`. Inputs:

* `details` — the outcome of `await getDeviceDetails(...)`: `.error` when
  that call threw (its own `try` rethrows every failure as
  `设备信息获取失败: ...`), otherwise the `avTransport` it found (possibly
  null, making `play` throw `设备不支持投屏功能`);
* `net1`, `net2` — the network's responses to the `SetAVTransportURI` and
  `Play` SOAP requests, were they issued.

Returns the `{success, error}` result together with the list of SOAP
actions actually issued, in order. Every `throw` lands in the enclosing
`catch (err) { return { success: false, error: err.message }; }`. -/
def play (details : Except String (Option AVService))
    (net1 net2 : Except String SoapResponse) : PlayResult × List String :=
  match details with
  | .error e => ({ success := false, error := some e }, [])
  | .ok none => ({ success := false, error := some "设备不支持投屏功能" }, [])
  | .ok (some _) =>
    match sendSoapRequest net1 with
    | .error e => ({ success := false, error := some e }, ["SetAVTransportURI"])
    | .ok _ =>
      match sendSoapRequest net2 with
      | .error e =>
        ({ success := false, error := some e }, ["SetAVTransportURI", "Play"])
      | .ok _ => ({ success := true, error := none }, ["SetAVTransportURI", "Play"])

/-! ### Concrete fixtures used by the theorems below -/

/-- A `<service>` element as xml2js renders it. -/
def sampleService (ty url : String) : JVal :=
  .obj [("serviceType", .str ty), ("controlURL", .str url)]

/-- The `device` element of a device description with the given services. -/
def sampleDevice (services : List JVal) : JVal :=
  .obj
    [("friendlyName", .str " Living Room TV "),
     ("deviceType", .str "urn:schemas-upnp-org:device:MediaRenderer:1"),
     ("manufacturer", .str "Acme"),
     ("serviceList", .obj [("service", .arr services)])]

/-- A device-description document (`root/device/...` shape) with the given
service list. -/
def sampleDoc (services : List JVal) : JVal :=
  .obj [("root", .obj [("device", sampleDevice services)])]

/-- A renderer exposing RenderingControl then AVTransport:1. -/
def sampleDocAV : JVal :=
  sampleDoc
    [sampleService "urn:schemas-upnp-org:service:RenderingControl:1" "/rc",
     sampleService "urn:schemas-upnp-org:service:AVTransport:1"
       "/upnp/control/AVTransport"]

/-- A device exposing only RenderingControl and ConnectionManager. -/
def sampleDocRCOnly : JVal :=
  sampleDoc
    [sampleService "urn:schemas-upnp-org:service:RenderingControl:1" "/rc",
     sampleService "urn:schemas-upnp-org:service:ConnectionManager:1" "/cm"]

/-- An AVTransport device whose control URL (`http://`) cannot be parsed,
so `normalizeURL` fails on it. -/
def sampleDocBadControl : JVal :=
  sampleDoc
    [sampleService "urn:schemas-upnp-org:service:AVTransport:1" "http://"]

/-- A service element whose `serviceType` carries an XML attribute: under
`mergeAttrs: true` xml2js renders it as an object (text under `_`), so the
value is not a string and the match test throws on it. -/
def sampleServiceAttributed : JVal :=
  .obj
    [("serviceType",
        .obj [("_", .str "urn:schemas-upnp-org:service:RenderingControl:1"),
              ("xmlns", .str "urn:schemas-upnp-org:service-1-0")]),
     ("controlURL", .str "/rc")]

/-- A document whose service list holds the attributed (throwing) service
before a genuine AVTransport:1 service. -/
def sampleDocThrowingSvc : JVal :=
  sampleDoc
    [sampleServiceAttributed,
     sampleService "urn:schemas-upnp-org:service:AVTransport:1" "/av"]

/-- The descriptor `parseDeviceDescription` produces for `sampleDocAV`
fetched from `http://192.168.1.5:8080/desc.xml`. -/
def sampleDescriptor8080 : Descriptor :=
  { name := "Living Room TV"
    type := "MediaRenderer"
    manufacturer := "Acme"
    controlURL := some "http://192.168.1.5:8080/upnp/control/AVTransport"
    ip := "Pending"
    originalLocation := "http://192.168.1.5:8080/desc.xml"
    port := "8080" }

/-! ## Helper lemmas -/

theorem toList_append (s t : String) : (s ++ t).toList = s.toList ++ t.toList := by
  simp [String.toList, String.data_append]

theorem splitFirstColon_of_not_mem {cs : List Char} (h : ':' ∉ cs) :
    splitFirstColon cs = none := by
  induction cs with
  | nil => rfl
  | cons c rest ih =>
    simp only [List.mem_cons, not_or] at h
    have hc : ¬ (c = ':') := fun hh => h.1 hh.symm
    simp [splitFirstColon, hc, ih h.2]

theorem splitFirstColon_append {ks : List Char} (vs : List Char) (h : ':' ∉ ks) :
    splitFirstColon (ks ++ ':' :: vs) = some (ks, vs) := by
  induction ks with
  | nil => simp [splitFirstColon]
  | cons c rest ih =>
    simp only [List.mem_cons, not_or] at h
    have hc : ¬ (c = ':') := fun hh => h.1 hh.symm
    simp [splitFirstColon, hc, ih h.2]

theorem listStartsWith_single {cs : List Char} {c : Char}
    (h : listStartsWith cs [c] = true) : ∃ rest, cs = c :: rest := by
  cases cs with
  | nil => simp [listStartsWith] at h
  | cons d rest =>
    refine ⟨rest, ?_⟩
    simp [listStartsWith] at h
    rw [h]

/-! ## C7 — device-type extraction -/

/-- C7: the extracted device type is the element at index 3 of the
colon-split of the deviceType URN; fewer than 4 segments, or an absent
deviceType, yield the default `MediaRenderer`; in particular
`urn:schemas-upnp-org:device:MediaRenderer:1` yields `MediaRenderer`. -/
theorem parseDeviceType_urn_segment :
    (∀ s : String, ((splitColon s.toList).map String.mk).length ≥ 4 →
        parseDeviceType (some s) = ((splitColon s.toList).map String.mk).getD 3 "") ∧
    (∀ s : String, ((splitColon s.toList).map String.mk).length < 4 →
        parseDeviceType (some s) = "MediaRenderer") ∧
    parseDeviceType none = "MediaRenderer" ∧
    parseDeviceType (some "urn:schemas-upnp-org:device:MediaRenderer:1")
      = "MediaRenderer" := by
  refine ⟨fun s h => ?_, fun s h => ?_, by decide, by decide⟩
  · simp only [parseDeviceType, Option.getD_some]
    rw [if_pos h]
  · simp only [parseDeviceType, Option.getD_some]
    rw [if_neg (Nat.not_le_of_lt h)]

/-- Witness for C7 at concrete inputs. -/
theorem parseDeviceType_urn_segment_witness :
    parseDeviceType (some "urn:schemas-upnp-org:device:MediaPlayer:2")
      = "MediaPlayer" ∧
    parseDeviceType (some "a:b") = "MediaRenderer" := by
  constructor
  · exact (parseDeviceType_urn_segment.1 "urn:schemas-upnp-org:device:MediaPlayer:2"
      (by decide)).trans (by decide)
  · exact parseDeviceType_urn_segment.2.1 "a:b" (by decide)

/-! ## C5 — URL normalization -/

/-- C5 counterexample: the URL parser drops the scheme-default port `:80`,
so the normalized URL is `http://192.168.1.5/upnp/control/AVTransport`,
not the claimed `http://192.168.1.5:80/upnp/control/AVTransport`. -/
theorem normalizeURL_drops_default_port :
    normalizeURL "http://192.168.1.5:80/desc.xml" "/upnp/control/AVTransport"
        = some "http://192.168.1.5/upnp/control/AVTransport" ∧
    normalizeURL "http://192.168.1.5:80/desc.xml" "/upnp/control/AVTransport"
        ≠ some "http://192.168.1.5:80/upnp/control/AVTransport" := by
  constructor
  · decide
  · decide

/-- C5 (amended): `normalizeURL` resolves an absolute-from-origin path
against the origin (scheme + host + port) of the base — the base's own path
never appears in the result — and collapses every run of consecutive `/` in
the path; a scheme-default port (e.g. `:80` for http) is dropped by the URL
parser, so it is absent from the output. -/
theorem normalizeURL_origin_resolution :
    (∀ base path b, parseURL base = some b →
        strStartsWith path "/" = true → strStartsWith path "//" = false →
        normalizeURL base path =
          some (hrefOf { scheme := b.scheme, host := b.host, port := b.port,
                         pathname := collapseSlashes path })) ∧
    normalizeURL "http://192.168.1.5:80/desc.xml" "/upnp/control/AVTransport"
        = some "http://192.168.1.5/upnp/control/AVTransport" ∧
    normalizeURL "http://192.168.1.5:80/desc.xml" "upnp//control//AVTransport"
        = some "http://192.168.1.5/upnp/control/AVTransport" := by
  refine ⟨fun base path b hb h1 h2 => ?_, by decide, by decide⟩
  obtain ⟨rest, hrest⟩ := listStartsWith_single (by simpa [strStartsWith] using h1)
  have habs : looksAbsolute path.toList = false := by
    rw [show path.toList = '/' :: rest from hrest]
    simp [looksAbsolute]
  simp only [normalizeURL, hb, resolveURL, habs, h2, h1, Bool.false_eq_true,
    if_false, if_true]
  rfl

/-- Witness for C5 (amended) at a concrete base and path. -/
theorem normalizeURL_origin_resolution_witness :
    normalizeURL "http://192.168.1.5:80/desc.xml" "/upnp//control/AVTransport" =
      some (hrefOf { scheme := "http", host := "192.168.1.5", port := "",
                     pathname := collapseSlashes "/upnp//control/AVTransport" }) :=
  normalizeURL_origin_resolution.1 "http://192.168.1.5:80/desc.xml"
    "/upnp//control/AVTransport" ⟨"http", "192.168.1.5", "", "/desc.xml"⟩
    (by decide) (by decide) (by decide)

/-! ## C6 — SSDP header-line parsing -/

/-- C6: each datagram line is split at its first colon, the key lower-cased
(and trimmed), the value trimmed; a line with no colon contributes nothing;
a value may itself contain colons (a URL is preserved intact). -/
theorem header_first_colon_split :
    (∀ acc line, (':' ∉ line.toList) → headerStep acc line = acc) ∧
    (∀ acc k v, ':' ∉ k.toList →
        jsToLower (jsTrim k) ≠ "" → jsTrim v ≠ "" →
        headerStep acc (k ++ ":" ++ v)
          = setAssoc acc (jsToLower (jsTrim k)) (jsTrim v)) ∧
    parseHeaders
        "HTTP/1.1 200 OK\r\nLOCATION: http://192.168.1.5:8080/desc.xml\r\nST: urn:schemas-upnp-org:service:AVTransport:1\r\n\r\n"
      = [("location", "http://192.168.1.5:8080/desc.xml"),
         ("st", "urn:schemas-upnp-org:service:AVTransport:1")] := by
  refine ⟨fun acc line h => ?_, fun acc k v hk hkey hval => ?_, by decide⟩
  · have h' : ':' ∉ line.data := h
    simp [headerStep, splitFirstColon_of_not_mem h']
  · have hk' : ':' ∉ k.data := hk
    have hsplit : splitFirstColon (k ++ ":" ++ v).data
        = some (k.data, v.data) := by
      rw [String.data_append, String.data_append]
      have hcolon : (":" : String).data = [':'] := rfl
      rw [hcolon, List.append_assoc]
      exact splitFirstColon_append v.data hk'
    simp only [headerStep]
    rw [show splitFirstColon (k ++ ":" ++ v).toList = some (k.data, v.data)
      from hsplit]
    dsimp only
    have hks : String.mk k.data = k := by cases k; rfl
    have hvs : String.mk v.data = v := by cases v; rfl
    rw [hks, hvs, if_pos ⟨hkey, hval⟩]

/-- Witness for C6: a value containing colons survives intact, and a
colon-free line is dropped. -/
theorem header_first_colon_split_witness :
    headerStep [] "LOCATION: http://192.168.1.5:8080/desc.xml"
      = setAssoc [] (jsToLower (jsTrim "LOCATION"))
          (jsTrim " http://192.168.1.5:8080/desc.xml") ∧
    headerStep [("a", "b")] "HTTP/1.1 200 OK" = [("a", "b")] := by
  constructor
  · exact header_first_colon_split.2.1 [] "LOCATION"
      " http://192.168.1.5:8080/desc.xml" (by decide) (by decide) (by decide)
  · exact header_first_colon_split.1 [("a", "b")] "HTTP/1.1 200 OK" (by decide)

/-! ## C8 — XML escaping of the media URL -/

/-- C8: the SetAVTransportURI body embeds the XML-escaped media URL; each of
the five XML special characters is replaced by its entity, every other
character is kept verbatim, and the escaped text contains no raw `<`, `>`,
`'` or `"` at all (a raw `&` can only appear as the head of an entity the
replacement itself produced). -/
theorem escapeXml_embedding :
    (∀ mediaURL, setAVTransportURIBody mediaURL =
        "<CurrentURI>" ++ escapeXml mediaURL ++
          "</CurrentURI>\n                 <CurrentURIMetaData></CurrentURIMetaData>") ∧
    escapeChar '&' = "&amp;" ∧ escapeChar '<' = "&lt;" ∧
    escapeChar '>' = "&gt;" ∧ escapeChar '\'' = "&apos;" ∧
    escapeChar '"' = "&quot;" ∧
    (∀ c, c ∉ (['&', '<', '>', '\'', '"'] : List Char) →
        escapeChar c = String.mk [c]) ∧
    (∀ s, (escapeXml s).toList
        = s.toList.flatMap (fun c => (escapeChar c).toList)) ∧
    (∀ s, ∀ c ∈ (['<', '>', '\'', '"'] : List Char),
        c ∉ (escapeXml s).toList) := by
  refine ⟨fun mediaURL => ?_, by decide, by decide, by decide, by decide,
    by decide, fun c hc => ?_, fun s => rfl, fun s c hc hmem => ?_⟩
  · simp only [setAVTransportURIBody]
    rw [String.append_assoc, String.append_assoc]
    congr 1
  · simp only [List.mem_cons, not_or, List.not_mem_nil] at hc
    obtain ⟨h1, h2, h3, h4, h5, -⟩ := hc
    simp [escapeChar, h1, h2, h3, h4, h5]
  · obtain ⟨b, -, hb⟩ := List.mem_flatMap.mp hmem
    simp only [escapeChar] at hb
    simp only [List.mem_cons, List.not_mem_nil, or_false] at hc
    rcases hc with rfl | rfl | rfl | rfl <;>
      (split_ifs at hb <;>
        first
          | exact absurd hb (by decide)
          | (simp at hb; exact absurd hb.symm (by assumption)))

/-- Witness for C8: the body of a concrete media URL, and absence of raw
specials in a concrete escape. -/
theorem escapeXml_embedding_witness :
    setAVTransportURIBody "http://me.dia/a?x=1&y='2\"" =
      "<CurrentURI>" ++ escapeXml "http://me.dia/a?x=1&y='2\"" ++
        "</CurrentURI>\n                 <CurrentURIMetaData></CurrentURIMetaData>" ∧
    '"' ∉ (escapeXml "http://me.dia/a?x=1&y='2\"").toList := by
  constructor
  · exact escapeXml_embedding.1 "http://me.dia/a?x=1&y='2\""
  · exact escapeXml_embedding.2.2.2.2.2.2.2.2 "http://me.dia/a?x=1&y='2\"" '"'
      (by decide)

/-! ## C2 — dedup of SSDP responses by location -/

theorem scanStep_pairwise_keys {devices : List (String × Descriptor)}
    {d : Datagram} (h : devices.Pairwise (fun p q => p.1 ≠ q.1)) :
    (scanStep devices d).Pairwise (fun p q => p.1 ≠ q.1) := by
  cases hl : getAssoc (parseHeaders d.msg) "location" with
  | none => simpa [scanStep, hl] using h
  | some loc =>
    cases hin : devices.any (fun p => p.1 = loc) with
    | true => simpa [scanStep, hl, hin] using h
    | false =>
      cases hr : d.resolved with
      | none => simpa [scanStep, hl, hin, hr] using h
      | some dev =>
        have hgoal : scanStep devices d
            = devices ++ [(loc, { dev with ip := d.address })] := by
          simp [scanStep, hl, hin, hr]
        rw [hgoal]
        refine List.pairwise_append.mpr ⟨h, List.pairwise_singleton _ _, ?_⟩
        intro a ha b hb
        simp only [List.mem_singleton] at hb
        subst hb
        intro heq
        have hany : devices.any (fun p => p.1 = loc) = true :=
          List.any_eq_true.mpr ⟨a, ha, by simp [heq]⟩
        rw [hin] at hany
        exact Bool.noConfusion hany

/-- C2: the result map never holds two entries with the same location key
(so duplicate datagrams for one location contribute at most one entry); a
datagram with no location header contributes nothing; and two successfully
resolved datagrams with distinct locations both appear even when the
resolved devices carry the same friendlyName. -/
theorem discover_dedup_by_location (msgs : List Datagram) :
    (runScan msgs).Pairwise (fun p q => p.1 ≠ q.1) ∧
    (∀ devices d, getAssoc (parseHeaders d.msg) "location" = none →
        scanStep devices d = devices) ∧
    (∀ d1 d2 l1 l2 dev1 dev2,
        getAssoc (parseHeaders d1.msg) "location" = some l1 →
        getAssoc (parseHeaders d2.msg) "location" = some l2 →
        l1 ≠ l2 → d1.resolved = some dev1 → d2.resolved = some dev2 →
        dev1.name = dev2.name →
        (runScan [d1, d2]).map Prod.fst = [l1, l2]) := by
  refine ⟨?_, fun devices d h => ?_, fun d1 d2 l1 l2 dev1 dev2 h1 h2 hne hr1 hr2 _ => ?_⟩
  · have main : ∀ (ms : List Datagram) (acc : List (String × Descriptor)),
        acc.Pairwise (fun p q => p.1 ≠ q.1) →
        (ms.foldl scanStep acc).Pairwise (fun p q => p.1 ≠ q.1) := by
      intro ms
      induction ms with
      | nil => exact fun acc h => h
      | cons d rest ih => exact fun acc h => ih _ (scanStep_pairwise_keys h)
    exact main msgs [] List.Pairwise.nil
  · simp [scanStep, h]
  · simp [runScan, scanStep, h1, h2, hr1, hr2, hne]

/-- Witness for C2 at two concrete datagrams sharing a friendlyName. -/
theorem discover_dedup_by_location_witness :
    (runScan
      [⟨"LOCATION: http://192.168.1.5:8080/desc.xml", "192.168.1.5",
          some sampleDescriptor8080⟩,
       ⟨"LOCATION: http://192.168.1.9:8080/desc.xml", "192.168.1.9",
          some sampleDescriptor8080⟩]).map Prod.fst
      = ["http://192.168.1.5:8080/desc.xml", "http://192.168.1.9:8080/desc.xml"] :=
  (discover_dedup_by_location []).2.2
    ⟨"LOCATION: http://192.168.1.5:8080/desc.xml", "192.168.1.5",
        some sampleDescriptor8080⟩
    ⟨"LOCATION: http://192.168.1.9:8080/desc.xml", "192.168.1.9",
        some sampleDescriptor8080⟩
    "http://192.168.1.5:8080/desc.xml" "http://192.168.1.9:8080/desc.xml"
    sampleDescriptor8080 sampleDescriptor8080
    (by decide) (by decide) (by decide) rfl rfl rfl

/-! ## Characterization of a successful description parse -/

/-- `parseDeviceDescription` returns a descriptor exactly when every stage
succeeds, and then each descriptor field is the one computed by the
corresponding stage. -/
theorem parseDeviceDescription_some_iff {location : String}
    {fetched : Except String JVal} {d : Descriptor} :
    parseDeviceDescription location fetched = some d ↔
      ∃ result dev av u nm ty mf,
        fetched = Except.ok result ∧
        isValidHttpUrl location = true ∧
        deviceOf result = some dev ∧
        jsTruthy dev = true ∧
        findAVOpt (getFieldJ dev "serviceList") = Except.ok (some av) ∧
        parseURL location = some u ∧
        jsStrTrimOr (getFieldJ dev "friendlyName") "Unnamed Device"
          = Except.ok nm ∧
        jsDeviceTypeArg (getFieldJ dev "deviceType") = Except.ok ty ∧
        jsStrTrimOr (getFieldJ dev "manufacturer") "Unknown Manufacturer"
          = Except.ok mf ∧
        d = { name := nm, type := parseDeviceType ty, manufacturer := mf,
              controlURL := normalizeURL location (jsToString av.controlURL),
              ip := "Pending", originalLocation := location,
              port := u.port } := by
  constructor
  · intro h
    by_cases hv : isValidHttpUrl location = true
    · cases fetched with
      | error e => simp [parseDeviceDescription, hv] at h
      | ok result =>
        cases hdev : deviceOf result with
        | none => simp [parseDeviceDescription, hv, hdev] at h
        | some dev =>
          cases htr : jsTruthy dev with
          | false => simp [parseDeviceDescription, hv, hdev, htr] at h
          | true =>
            cases hav : findAVOpt (getFieldJ dev "serviceList") with
            | error e => simp [parseDeviceDescription, hv, hdev, htr, hav] at h
            | ok avOpt =>
              cases avOpt with
              | none => simp [parseDeviceDescription, hv, hdev, htr, hav] at h
              | some av =>
              cases hu : parseURL location with
              | none =>
                simp [parseDeviceDescription, hv, hdev, htr, hav, hu] at h
              | some u =>
                cases hnm : jsStrTrimOr (getFieldJ dev "friendlyName")
                    "Unnamed Device" with
                | error e =>
                  simp [parseDeviceDescription, hv, hdev, htr, hav, hu, hnm] at h
                | ok nm =>
                  cases hty : jsDeviceTypeArg (getFieldJ dev "deviceType") with
                  | error e =>
                    simp [parseDeviceDescription, hv, hdev, htr, hav, hu, hnm,
                      hty] at h
                  | ok ty =>
                    cases hmf : jsStrTrimOr (getFieldJ dev "manufacturer")
                        "Unknown Manufacturer" with
                    | error e =>
                      simp [parseDeviceDescription, hv, hdev, htr, hav, hu,
                        hnm, hty, hmf] at h
                    | ok mf =>
                      refine ⟨result, dev, av, u, nm, ty, mf, rfl, hv, hdev,
                        htr, hav, rfl, hnm, hty, hmf, ?_⟩
                      simp [parseDeviceDescription, hv, hdev, htr, hav, hu,
                        hnm, hty, hmf] at h
                      exact h.symm
    · simp [parseDeviceDescription, hv] at h
  · rintro ⟨result, dev, av, u, nm, ty, mf, rfl, hv, hdev, htr, hav, hu, hnm,
      hty, hmf, rfl⟩
    simp [parseDeviceDescription, hv, hdev, htr, hav, hu, hnm, hty, hmf]

/-! ## C10 — descriptor port field -/

/-- C10: a returned descriptor's `port` is the parsed location URL's port
string verbatim — empty when the location has no port or a scheme-default
one (the parser drops `:80` for http), the digit string otherwise. -/
theorem descriptor_port_verbatim :
    (∀ location fetched d,
        parseDeviceDescription location fetched = some d →
        ∃ u, parseURL location = some u ∧ d.port = u.port) ∧
    (parseDeviceDescription "http://192.168.1.5:80/desc.xml"
        (Except.ok sampleDocAV)).map Descriptor.port = some "" ∧
    (parseDeviceDescription "http://192.168.1.5:8080/desc.xml"
        (Except.ok sampleDocAV)).map Descriptor.port = some "8080" ∧
    (parseDeviceDescription "http://192.168.1.5/desc.xml"
        (Except.ok sampleDocAV)).map Descriptor.port = some "" := by
  refine ⟨fun location fetched d h => ?_, by decide, by decide, by decide⟩
  obtain ⟨result, dev, av, u, nm, ty, mf, -, -, -, -, -, hu, -, -, -, hd⟩ :=
    parseDeviceDescription_some_iff.mp h
  refine ⟨u, hu, ?_⟩
  rw [hd]

/-- Witness for C10 at a concrete non-default-port location. -/
theorem descriptor_port_verbatim_witness :
    ∃ u, parseURL "http://192.168.1.5:8080/desc.xml" = some u ∧
      sampleDescriptor8080.port = u.port :=
  descriptor_port_verbatim.1 "http://192.168.1.5:8080/desc.xml"
    (Except.ok sampleDocAV) sampleDescriptor8080 (by decide)

/-! ## C4 — unresolvable control URL -/

/-- C4 counterexample: a device whose control URL cannot be normalized is
NOT skipped — `parseDeviceDescription` still returns its descriptor, with
`controlURL` null, and the device appears in the scan's result set. -/
theorem unnormalizable_control_url_kept :
    (parseDeviceDescription "http://192.168.1.5:8080/desc.xml"
        (Except.ok sampleDocBadControl)).map Descriptor.controlURL
      = some none ∧
    discoverResults
        [⟨"LOCATION: http://192.168.1.5:8080/desc.xml", "192.168.1.5",
            parseDeviceDescription "http://192.168.1.5:8080/desc.xml"
              (Except.ok sampleDocBadControl)⟩] ≠ [] := by
  exact ⟨by decide, by decide⟩

/-- C4 (amended): normalization failure never crashes the parse
(`normalizeURL` catches and returns null) but it also does not skip the
device: whenever every other stage succeeds, the descriptor is returned
with `controlURL` bound to the (possibly null) normalization result. -/
theorem normalize_failure_keeps_device
    (location : String) (result dev : JVal) (av : AVService) (u : ParsedURL)
    (nm : String) (ty : Option String) (mf : String)
    (hv : isValidHttpUrl location = true)
    (hdev : deviceOf result = some dev)
    (htr : jsTruthy dev = true)
    (hav : findAVOpt (getFieldJ dev "serviceList") = Except.ok (some av))
    (hu : parseURL location = some u)
    (hnm : jsStrTrimOr (getFieldJ dev "friendlyName") "Unnamed Device"
      = Except.ok nm)
    (hty : jsDeviceTypeArg (getFieldJ dev "deviceType") = Except.ok ty)
    (hmf : jsStrTrimOr (getFieldJ dev "manufacturer") "Unknown Manufacturer"
      = Except.ok mf) :
    ∃ d, parseDeviceDescription location (Except.ok result) = some d ∧
      d.controlURL = normalizeURL location (jsToString av.controlURL) :=
  ⟨_, parseDeviceDescription_some_iff.mpr
      ⟨result, dev, av, u, nm, ty, mf, rfl, hv, hdev, htr, hav, hu, hnm, hty,
        hmf, rfl⟩, rfl⟩

/-- Witness for C4 (amended) at the concrete bad-control-URL document,
where the normalization result is indeed `none`. -/
theorem normalize_failure_keeps_device_witness :
    (∃ d, parseDeviceDescription "http://192.168.1.5:8080/desc.xml"
        (Except.ok sampleDocBadControl) = some d ∧
      d.controlURL = normalizeURL "http://192.168.1.5:8080/desc.xml"
        (jsToString (some (JVal.str "http://")))) ∧
    normalizeURL "http://192.168.1.5:8080/desc.xml"
      (jsToString (some (JVal.str "http://"))) = none := by
  constructor
  · exact normalize_failure_keeps_device "http://192.168.1.5:8080/desc.xml"
      sampleDocBadControl
      (sampleDevice
        [sampleService "urn:schemas-upnp-org:service:AVTransport:1" "http://"])
      ⟨"urn:schemas-upnp-org:service:AVTransport:1", some (JVal.str "http://")⟩
      ⟨"http", "192.168.1.5", "8080", "/desc.xml"⟩
      "Living Room TV" (some "urn:schemas-upnp-org:device:MediaRenderer:1")
      "Acme" (by decide) rfl rfl rfl (by decide) rfl rfl rfl
  · decide

/-! ## C1 — strict sequencing of the two SOAP actions in `play` -/

/-- C1: `Play` is issued only when `SetAVTransportURI` was answered with a
2xx status; a non-2xx answer to an issued `SetAVTransportURI` makes `play`
return success `false` with an error mentioning that status and `Play` is
never issued; and `play` always returns a result value — on every failure
path the error is a caught message, never an escaping exception. -/
theorem play_soap_sequencing (details : Except String (Option AVService))
    (net1 net2 : Except String SoapResponse) :
    ("Play" ∈ (play details net1 net2).2 →
      ∃ r, net1 = Except.ok r ∧ respOk r.status = true) ∧
    (∀ r, net1 = Except.ok r → respOk r.status = false →
      "SetAVTransportURI" ∈ (play details net1 net2).2 →
      (play details net1 net2).1.success = false ∧
      (∃ pre post,
        (play details net1 net2).1.error
          = some (pre ++ toString r.status ++ post)) ∧
      "Play" ∉ (play details net1 net2).2) ∧
    ((play details net1 net2).1.success = true ∨
      ∃ e, (play details net1 net2).1.error = some e) := by
  rcases details with e | opt
  · refine ⟨fun hmem => absurd hmem (by simp [play]), ?_, Or.inr ⟨e, rfl⟩⟩
    intro r h1 _ hmem
    exact absurd hmem (by simp [play])
  · cases opt with
    | none =>
      refine ⟨fun hmem => absurd hmem (by simp [play]), ?_,
        Or.inr ⟨"设备不支持投屏功能", rfl⟩⟩
      intro r h1 _ hmem
      exact absurd hmem (by simp [play])
    | some av =>
      cases net1 with
      | error e =>
        refine ⟨fun hmem => absurd hmem (by simp [play, sendSoapRequest]), ?_,
          Or.inr ⟨e, by simp [play, sendSoapRequest]⟩⟩
        intro r h1 _ _
        exact Except.noConfusion h1
      | ok r =>
        cases hok : respOk r.status with
        | false =>
          have hplay : play (Except.ok (some av)) (Except.ok r) net2
              = ({ success := false,
                   error := some (soapFailMsg r.status r.body) },
                 ["SetAVTransportURI"]) := by
            simp [play, sendSoapRequest, hok]
          refine ⟨fun hmem => absurd hmem (by simp [hplay]), ?_,
            Or.inr ⟨soapFailMsg r.status r.body, by simp [hplay]⟩⟩
          intro r' h1 _ _
          have hr : r' = r := by
            injection h1 with h1'
            exact h1'.symm
          subst hr
          refine ⟨by simp [hplay], ⟨"SOAP请求失败: ", " - " ++ r'.body, ?_⟩,
            by simp [hplay]⟩
          simp [hplay, soapFailMsg, String.append_assoc]
        | true =>
          cases hp : r.parsed with
          | error pe =>
            have hplay : play (Except.ok (some av)) (Except.ok r) net2
                = ({ success := false, error := some pe },
                   ["SetAVTransportURI"]) := by
              simp [play, sendSoapRequest, hok, hp]
            refine ⟨fun hmem => absurd hmem (by simp [hplay]), ?_,
              Or.inr ⟨pe, by simp [hplay]⟩⟩
            intro r' h1 hbad _
            have hr : r' = r := by
              injection h1 with h1'
              exact h1'.symm
            subst hr
            rw [hok] at hbad
            exact Bool.noConfusion hbad
          | ok _ =>
            have hfirst : sendSoapRequest (Except.ok r) = Except.ok () := by
              simp [sendSoapRequest, hok, hp]
            refine ⟨fun _ => ⟨r, rfl, hok⟩, ?_, ?_⟩
            · intro r' h1 hbad _
              have hr : r' = r := by
                injection h1 with h1'
                exact h1'.symm
              subst hr
              rw [hok] at hbad
              exact Bool.noConfusion hbad
            · cases net2 with
              | error e2 =>
                exact Or.inr ⟨e2, by simp [play, sendSoapRequest, hok, hp]⟩
              | ok r2 =>
                cases hok2 : respOk r2.status with
                | false =>
                  exact Or.inr ⟨soapFailMsg r2.status r2.body,
                    by simp [play, sendSoapRequest, hok, hp, hok2]⟩
                | true =>
                  cases hp2 : r2.parsed with
                  | error pe2 =>
                    exact Or.inr ⟨pe2,
                      by simp [play, sendSoapRequest, hok, hp, hok2, hp2]⟩
                  | ok _ =>
                    exact Or.inl
                      (by simp [play, sendSoapRequest, hok, hp, hok2, hp2])

/-- Witness for C1: a 500 answer to `SetAVTransportURI` yields a failure
result and no `Play` action. -/
theorem play_soap_sequencing_witness :
    (play (Except.ok (some ⟨"urn:schemas-upnp-org:service:AVTransport:1",
          some (JVal.str "/av")⟩))
        (Except.ok ⟨500, "Internal Server Error", Except.ok ()⟩)
        (Except.ok ⟨200, "", Except.ok ()⟩)).1.success = false ∧
    "Play" ∉ (play (Except.ok (some ⟨"urn:schemas-upnp-org:service:AVTransport:1",
          some (JVal.str "/av")⟩))
        (Except.ok ⟨500, "Internal Server Error", Except.ok ()⟩)
        (Except.ok ⟨200, "", Except.ok ()⟩)).2 := by
  have h := (play_soap_sequencing
      (Except.ok (some ⟨"urn:schemas-upnp-org:service:AVTransport:1",
          some (JVal.str "/av")⟩))
      (Except.ok ⟨500, "Internal Server Error", Except.ok ()⟩)
      (Except.ok ⟨200, "", Except.ok ()⟩)).2.1
      ⟨500, "Internal Server Error", Except.ok ()⟩ rfl (by decide) (by decide)
  exact ⟨h.1, h.2.2⟩

/-! ## C9 — socket bind / multicast-join failure during discover -/

/-- C9: a bind failure is routed through the `'error'` handler — the socket
is closed and `discover` resolves with `[]` — but a multicast-join failure
(`addMembership` throwing inside the unguarded bind callback of
src/index.js:40-43) escapes uncaught: nothing is cleaned up and no `[]` is
returned, contradicting the claimed behaviour. -/
theorem discover_setup_failure (msgs : List Datagram) (e : String) :
    discover (.bindError e) msgs
      = { result := Except.ok [], socketClosed := true } ∧
    discover (.bound (some e)) msgs
      = { result := Except.error e, socketClosed := false } ∧
    (discover (.bound (some e)) msgs).result ≠ Except.ok [] ∧
    (discover (.bound (some e)) msgs).socketClosed = false := by
  refine ⟨rfl, rfl, ?_, rfl⟩
  intro h
  exact Except.noConfusion h

/-! ## C3 — first-match AVTransport service search -/

mutual

theorem findAV_eq_dfs (v : JVal) :
    findAVTransportService v =
      match (dfsNodes v).find? isStopNode with
      | none => Except.ok none
      | some a =>
        if isAVNode a then Except.ok (some (extractAVService a))
        else Except.error svcTypeError := by
  match v with
  | .str s => simp [findAVTransportService, dfsNodes]
  | .arr xs =>
    simp only [findAVTransportService, dfsNodes]
    exact findAVList_eq_dfs xs
  | .obj fs =>
    simp only [findAVTransportService, dfsNodes]
    cases hs : getField fs "serviceType" with
    | none =>
      dsimp only
      have hstop : isStopNode (JVal.obj fs) = false := by
        simp [isStopNode, isAVNode, isThrowNode, hs]
      rw [List.find?_cons_of_neg _ (by simp [hstop])]
      exact findAVFields_eq_dfs fs
    | some w =>
      cases w with
      | str s =>
        dsimp only
        cases hsw : strStartsWith s avUrn with
        | true =>
          rw [if_pos rfl]
          have hstop : isStopNode (JVal.obj fs) = true := by
            simp [isStopNode, isAVNode, hs, hsw]
          have hAV : isAVNode (JVal.obj fs) = true := by
            simp [isAVNode, hs, hsw]
          rw [List.find?_cons_of_pos _ hstop]
          simp [hAV, extractAVService, hs]
        | false =>
          rw [if_neg (by simp)]
          have hstop : isStopNode (JVal.obj fs) = false := by
            simp [isStopNode, isAVNode, isThrowNode, hs, hsw]
          rw [List.find?_cons_of_neg _ (by simp [hstop])]
          exact findAVFields_eq_dfs fs
      | arr l =>
        dsimp only
        have hstop : isStopNode (JVal.obj fs) = true := by
          simp [isStopNode, isThrowNode, hs]
        have hAV : isAVNode (JVal.obj fs) = false := by simp [isAVNode, hs]
        rw [List.find?_cons_of_pos _ hstop]
        simp [hAV]
      | obj gs =>
        dsimp only
        have hstop : isStopNode (JVal.obj fs) = true := by
          simp [isStopNode, isThrowNode, hs]
        have hAV : isAVNode (JVal.obj fs) = false := by simp [isAVNode, hs]
        rw [List.find?_cons_of_pos _ hstop]
        simp [hAV]

theorem findAVList_eq_dfs (xs : List JVal) :
    findAVInList xs =
      match (dfsNodesList xs).find? isStopNode with
      | none => Except.ok none
      | some a =>
        if isAVNode a then Except.ok (some (extractAVService a))
        else Except.error svcTypeError := by
  match xs with
  | [] => simp [findAVInList, dfsNodesList]
  | x :: rest =>
    simp only [findAVInList, dfsNodesList, List.find?_append]
    rw [findAV_eq_dfs x]
    cases hfx : (dfsNodes x).find? isStopNode with
    | some a =>
      dsimp only
      cases hAV : isAVNode a with
      | true => simp [hAV]
      | false => simp [hAV]
    | none =>
      simp only [Option.none_or]
      exact findAVList_eq_dfs rest

theorem findAVFields_eq_dfs (fs : List (String × JVal)) :
    findAVInFields fs =
      match (dfsNodesFields fs).find? isStopNode with
      | none => Except.ok none
      | some a =>
        if isAVNode a then Except.ok (some (extractAVService a))
        else Except.error svcTypeError := by
  match fs with
  | [] => simp [findAVInFields, dfsNodesFields]
  | f :: rest =>
    simp only [findAVInFields, dfsNodesFields, List.find?_append]
    rw [findAV_eq_dfs f.2]
    cases hfx : (dfsNodes f.2).find? isStopNode with
    | some a =>
      dsimp only
      cases hAV : isAVNode a with
      | true => simp [hAV]
      | false => simp [hAV]
    | none =>
      simp only [Option.none_or]
      exact findAVFields_eq_dfs rest

end

/-- C3 counterexample: in `sampleDocThrowingSvc` the service-list subtree
DOES contain a node whose serviceType begins with the AVTransport stem (it
is the first — and only — such node in document order), yet the search
throws a TypeError at the earlier attributed service's non-string
serviceType, resolution fails, and the device is excluded — the search
does not return the first matching node as the claim states. -/
theorem non_string_serviceType_excludes_device :
    (dfsNodes (JVal.obj [("service",
        JVal.arr [sampleServiceAttributed,
          sampleService "urn:schemas-upnp-org:service:AVTransport:1" "/av"])])).find?
        isAVNode
      = some (sampleService "urn:schemas-upnp-org:service:AVTransport:1" "/av") ∧
    findAVOpt
        (getFieldJ
          (sampleDevice
            [sampleServiceAttributed,
             sampleService "urn:schemas-upnp-org:service:AVTransport:1" "/av"])
          "serviceList")
      = Except.error svcTypeError ∧
    parseDeviceDescription "http://192.168.1.5/desc.xml"
      (Except.ok sampleDocThrowingSvc) = none := by
  refine ⟨rfl, rfl, by decide⟩

/-- C3 (amended): the search walks the subtree in document (preorder)
order and stops at the first node whose serviceType test is decisive: a
string serviceType starting with `urn:schemas-upnp-org:service:AVTransport:`
is returned (first match wins, `:1` and `:2` both match); a non-string
serviceType (array or attributed element under mergeAttrs) makes the test
throw a TypeError — caught upstream, device skipped; if no decisive node
exists (e.g. only RenderingControl / ConnectionManager services),
resolution fails and the device is excluded from the result set. -/
theorem findAVTransportService_first_match :
    (∀ v, findAVTransportService v =
        match (dfsNodes v).find? isStopNode with
        | none => Except.ok none
        | some a =>
          if isAVNode a then Except.ok (some (extractAVService a))
          else Except.error svcTypeError) ∧
    (∀ v r, findAVTransportService v = Except.ok (some r) →
        strStartsWith r.serviceType avUrn = true) ∧
    isAVNode (sampleService "urn:schemas-upnp-org:service:AVTransport:1" "/av")
      = true ∧
    isAVNode (sampleService "urn:schemas-upnp-org:service:AVTransport:2" "/av")
      = true ∧
    isAVNode (sampleService "urn:schemas-upnp-org:service:RenderingControl:1" "/rc")
      = false ∧
    isAVNode (sampleService "urn:schemas-upnp-org:service:ConnectionManager:1" "/cm")
      = false ∧
    (∀ location result dev, deviceOf result = some dev →
        (findAVOpt (getFieldJ dev "serviceList") = Except.ok none ∨
          ∃ e, findAVOpt (getFieldJ dev "serviceList") = Except.error e) →
        parseDeviceDescription location (Except.ok result) = none) ∧
    parseDeviceDescription "http://192.168.1.5/desc.xml"
      (Except.ok sampleDocRCOnly) = none := by
  refine ⟨findAV_eq_dfs, fun v r h => ?_, by decide, by decide, by decide,
    by decide, fun location result dev hdev hor => ?_, by decide⟩
  · rw [findAV_eq_dfs v] at h
    cases hfind : (dfsNodes v).find? isStopNode with
    | none => rw [hfind] at h; exact absurd h (by simp)
    | some a =>
      rw [hfind] at h
      dsimp only at h
      cases hAV : isAVNode a with
      | false => rw [hAV] at h; simp at h
      | true =>
        rw [hAV, if_pos rfl] at h
        simp only [Except.ok.injEq, Option.some.injEq] at h
        rw [← h]
        cases a with
        | str s => simp [isAVNode] at hAV
        | arr l => simp [isAVNode] at hAV
        | obj gs =>
          simp only [isAVNode] at hAV
          cases hgf : getField gs "serviceType" with
          | none => simp [hgf] at hAV
          | some w =>
            cases w with
            | str s =>
              simp only [hgf] at hAV
              simpa [extractAVService, hgf] using hAV
            | arr l => simp [hgf] at hAV
            | obj gs2 => simp [hgf] at hAV
  · by_cases hv : isValidHttpUrl location = true
    · cases htr : jsTruthy dev with
      | false => simp [parseDeviceDescription, hv, hdev, htr]
      | true =>
        rcases hor with hav | ⟨e, hav⟩ <;>
          simp [parseDeviceDescription, hv, hdev, htr, hav]
    · simp [parseDeviceDescription, hv]

/-- Witness for C3 (amended): a version-2 AVTransport service is matched
and returned; a document with only RenderingControl / ConnectionManager
services yields no descriptor. -/
theorem findAVTransportService_first_match_witness :
    strStartsWith
      (AVService.serviceType
        ⟨"urn:schemas-upnp-org:service:AVTransport:2", some (JVal.str "/av")⟩)
      avUrn = true ∧
    parseDeviceDescription "http://192.168.1.5/desc.xml"
      (Except.ok sampleDocRCOnly) = none := by
  constructor
  · exact findAVTransportService_first_match.2.1
      (sampleService "urn:schemas-upnp-org:service:AVTransport:2" "/av")
      ⟨"urn:schemas-upnp-org:service:AVTransport:2", some (JVal.str "/av")⟩
      rfl
  · exact findAVTransportService_first_match.2.2.2.2.2.2.1
      "http://192.168.1.5/desc.xml" sampleDocRCOnly
      (sampleDevice
        [sampleService "urn:schemas-upnp-org:service:RenderingControl:1" "/rc",
         sampleService "urn:schemas-upnp-org:service:ConnectionManager:1" "/cm"])
      rfl (Or.inl rfl)

end DLNA
